import Mathlib

set_option autoImplicit false

/-!
Verification development for the ux-solsniper repository.

Shallow embedding of the position lifecycle and compounding-balance logic of
src/utils.py and src/sniper.py. Python floats are modelled as rationals,
fallible values as Option, and the side-effecting worker loop as an explicit
event trace. Every definition is transcribed from the source file and line
range named in its comment.
-/

/-- Result tag written by update_compound_balance (utils.py line 258). -/
inductive TradeResult where
  | win
  | loss
  | breakeven
deriving DecidableEq

/-- The persisted compounding state (utils.py, position_state.json fields:
default structure in load_position_state lines 140-149 plus the diagnostic
fields initialised in update_compound_balance lines 212-231). -/
structure CompoundState where
  current_balance_usd : ℚ
  cycle : ℕ
  last_daily_capital : Option ℚ
  cumulative_profit_usd : ℚ
  total_invested_usd : ℚ
  total_proceeds_usd : ℚ
  reserved_fees_usd : ℚ
  last_profit_usd : ℚ
  last_trade_result : Option TradeResult
deriving DecidableEq

/-- Default state returned by load_position_state (utils.py lines 143-148)
when the file is missing or unparseable, with the diagnostic fields at the
values update_compound_balance.setdefault gives them (lines 226-230). -/
def initial_position_state : CompoundState :=
  { current_balance_usd := 0
    cycle := 0
    last_daily_capital := none
    cumulative_profit_usd := 0
    total_invested_usd := 0
    total_proceeds_usd := 0
    reserved_fees_usd := 0
    last_profit_usd := 0
    last_trade_result := none }

/-- update_compound_balance (utils.py lines 154-274).
Arguments mirror the Python keyword arguments; daily_cap, buy_fee and
sell_fee are the DAILY_CAPITAL_USD, BUY_FEE_PERCENT and SELL_FEE_PERCENT
environment values read inside the function (lines 190-202). -/
def update_compound_balance (state : CompoundState)
    (after_profit_usd usd_in usd_out : Option ℚ)
    (daily_cap buy_fee sell_fee : ℚ) : CompoundState :=
  -- lines 173-181: profit = usd_out - usd_in, else after_profit_usd, else 0
  let profit : ℚ :=
    match usd_in, usd_out with
    | some i, some o => o - i
    | _, _ =>
      match after_profit_usd with
      | some p => p
      | none => 0
  -- line 204
  let total_fee_pct : ℚ := (buy_fee + sell_fee) / 100
  -- lines 206-223: reset tracking if daily cap changed
  let state :=
    if state.last_daily_capital ≠ some daily_cap then
      { current_balance_usd := 0
        cycle := 0
        last_daily_capital := some daily_cap
        cumulative_profit_usd := 0
        total_invested_usd := 0
        total_proceeds_usd := 0
        reserved_fees_usd := 0
        last_profit_usd := 0
        last_trade_result := none }
    else state
  -- lines 233-242: update aggregates
  let state :=
    match usd_in with
    | some i => { state with total_invested_usd := state.total_invested_usd + i }
    | none => state
  let state :=
    match usd_out with
    | some o => { state with total_proceeds_usd := state.total_proceeds_usd + o }
    | none => state
  -- lines 244-259: add profit into the compounding balance and meta fields
  { state with
    current_balance_usd := state.current_balance_usd + profit
    reserved_fees_usd := daily_cap * total_fee_pct
    cycle := state.cycle + 1
    last_daily_capital := some daily_cap
    last_profit_usd := profit
    last_trade_result :=
      some (if 0 < profit then TradeResult.win
            else if profit < 0 then TradeResult.loss
            else TradeResult.breakeven) }

/-- load_position_state (utils.py lines 140-149): _load_json returns an empty
dict on any read or parse failure (lines 118-123), and the falsy check then
substitutes the default structure. A parse or read failure is modelled as
none. -/
def load_position_state (raw : Option CompoundState) : CompoundState :=
  raw.getD initial_position_state

/-- Python int() truncation toward zero, applied to a rational. -/
def pyInt (x : ℚ) : ℤ :=
  if 0 ≤ x then ⌊x⌋ else ⌈x⌉

/-- Python round() on a rational: round half to even, as used by
int(round(x)). -/
def pyRound (x : ℚ) : ℤ :=
  if x - ⌊x⌋ < 1 / 2 then ⌊x⌋
  else if 1 / 2 < x - ⌊x⌋ then ⌊x⌋ + 1
  else if ⌊x⌋ % 2 = 0 then ⌊x⌋ else ⌊x⌋ + 1

/-- Fee adjustment of the input amount in execute_jupiter_swap_from_quote
(utils.py lines 843-846): in_amount = int(in_amount * (1 - fee_percent/100))
when fee_percent > 0. -/
def adjusted_in_amount (in_amount : ℤ) (fee_percent : ℚ) : ℤ :=
  if 0 < fee_percent then pyInt ((in_amount : ℚ) * (1 - fee_percent / 100))
  else in_amount

/-- The bookkeeping a buy or sell performs: the delta applied to the
compounding balance by update_compound_balance, and the gross, net and fee
amounts passed to record_buy or record_sell. -/
structure TradeEffects where
  compound_delta : ℚ
  gross : ℚ
  net : ℚ
  fee : ℚ
deriving DecidableEq

/-- DRY_RUN branch of execute_jupiter_swap_from_quote (utils.py lines
871-888): usd_value = (in_amount/1e9) * SOL_PRICE_USD computed at line 849
from the fee-adjusted in_amount, fee_usd = usd_value * fee_percent/100,
update_compound_balance(after_profit_usd=-usd_value), record_buy with
gross = usd_value and net = usd_value - fee_usd. -/
def dry_run_buy_effects (in_amount : ℤ) (fee_percent sol_price : ℚ) : TradeEffects :=
  let in_amt := adjusted_in_amount in_amount fee_percent
  let usd_value := ((in_amt : ℚ) / 1000000000) * sol_price
  let fee_usd := usd_value * (fee_percent / 100)
  { compound_delta := -usd_value
    gross := usd_value
    net := usd_value - fee_usd
    fee := fee_usd }

/-- Live success branch of execute_jupiter_swap_from_quote (utils.py lines
961-977): usd_value recomputed at line 963 by the same formula from the same
fee-adjusted in_amount, then the same update_compound_balance and record_buy
calls as the DRY_RUN branch. -/
def live_buy_success_effects (in_amount : ℤ) (fee_percent sol_price : ℚ) : TradeEffects :=
  let in_amt := adjusted_in_amount in_amount fee_percent
  let usd_value := ((in_amt : ℚ) / 1000000000) * sol_price
  let fee_usd := usd_value * (fee_percent / 100)
  { compound_delta := -usd_value
    gross := usd_value
    net := usd_value - fee_usd
    fee := fee_usd }

/-- DRY_RUN branch of execute_sell (sniper.py lines 1008-1024): out_usd and
fee_usd are computed before the branch (lines 986-988) from the order
outAmount, then update_compound_balance(after_profit_usd=out_usd) and
record_sell with gross = out_usd and net = out_usd - fee_usd. -/
def dry_run_sell_effects (out_amount : ℤ) (total_fee_pct sol_price : ℚ) : TradeEffects :=
  let est_out_sol := (out_amount : ℚ) / 1000000000
  let out_usd := est_out_sol * sol_price
  let fee_usd := out_usd * (total_fee_pct / 100)
  { compound_delta := out_usd
    gross := out_usd
    net := out_usd - fee_usd
    fee := fee_usd }

/-- Live success branch of execute_sell (sniper.py lines 1037-1048): the same
out_usd and fee_usd from lines 986-988, and the same update_compound_balance
and record_sell calls as the DRY_RUN branch. -/
def live_sell_success_effects (out_amount : ℤ) (total_fee_pct sol_price : ℚ) : TradeEffects :=
  let est_out_sol := (out_amount : ℚ) / 1000000000
  let out_usd := est_out_sol * sol_price
  let fee_usd := out_usd * (total_fee_pct / 100)
  { compound_delta := out_usd
    gross := out_usd
    net := out_usd - fee_usd
    fee := fee_usd }

/-- Fabricated transaction reference of the DRY_RUN buy branch (utils.py
line 872), parameterised by the int(time.time()) timestamp. -/
def dry_run_buy_ref (ts : ℤ) : String :=
  "DRY_RUN_BUY_" ++ toString ts

/-- Fabricated transaction reference of the DRY_RUN sell branch (sniper.py
line 1009). -/
def dry_run_sell_ref (ts : ℤ) : String :=
  "DRY_RUN_SELL_" ++ toString ts

/-- Outcome of one call to execute_jupiter_swap_from_quote (utils.py lines
788-985): the bookkeeping performed, and the returned reference. DRY_RUN
returns the fabricated reference after the bookkeeping (lines 871-888); a
successful live attempt returns the signature after the same bookkeeping
(lines 961-977); exhausted retries return None with no bookkeeping
(lines 984-985). -/
def buy_gateway_result (dry_run success : Bool) (in_amount : ℤ)
    (fee_percent sol_price : ℚ) (ts : ℤ) (sig : String) :
    Option TradeEffects × Option String :=
  if dry_run then
    (some (dry_run_buy_effects in_amount fee_percent sol_price), some (dry_run_buy_ref ts))
  else if success then
    (some (live_buy_success_effects in_amount fee_percent sol_price), some sig)
  else (none, none)

/-- Outcome of one call to execute_sell (sniper.py lines 906-1059), in the
same three cases as buy_gateway_result: DRY_RUN (lines 1008-1024), live
success (lines 1037-1051), exhausted retries (lines 1058-1059). -/
def sell_gateway_result (dry_run success : Bool) (out_amount : ℤ)
    (total_fee_pct sol_price : ℚ) (ts : ℤ) (sig : String) :
    Option TradeEffects × Option String :=
  if dry_run then
    (some (dry_run_sell_effects out_amount total_fee_pct sol_price), some (dry_run_sell_ref ts))
  else if success then
    (some (live_sell_success_effects out_amount total_fee_pct sol_price), some sig)
  else (none, none)

/-- Exit outcome of the monitoring loop (sniper.py monitor_position). -/
inductive ExitOutcome where
  | tp
  | sl
deriving DecidableEq

/-- The no-useful-data guard of monitor_position (sniper.py line 601):
(current_price is None or current_price <= 0.0) and current_mcap is None. -/
def no_data (current_price current_mcap : Option ℚ) : Bool :=
  (match current_price with
   | none => true
   | some p => decide (p ≤ 0)) && current_mcap.isNone

/-- pct_from_entry of monitor_position (sniper.py lines 606-611): the
percentage change of (current_price or 0.0) from entry_price, guarded to 0
when entry_price is not positive. -/
def pct_from_entry (entry_price : ℚ) (current_price : Option ℚ) : ℚ :=
  if 0 < entry_price then ((current_price.getD 0) - entry_price) / entry_price * 100
  else 0

/-- Outcome decision of the DRY_RUN path of monitor_position (sniper.py
lines 654-671): a market-cap threshold decision when both entry and current
market cap are known, and the price-percentage thresholds whenever that
decision is None. take_profit_pct and stop_loss_pct are the
already-normalised positive percentages of lines 559-560. -/
def dry_run_outcome (entry_mcap current_mcap : Option ℚ)
    (pct : ℚ) (take_profit_pct stop_loss_pct : ℚ) : Option ExitOutcome :=
  let mcapOutcome : Option ExitOutcome :=
    match entry_mcap, current_mcap with
    | some em, some cm =>
      if cm ≥ em * (1 + take_profit_pct / 100) then some ExitOutcome.tp
      else if cm ≤ em * (1 - stop_loss_pct / 100) then some ExitOutcome.sl
      else none
    | _, _ => none
  match mcapOutcome with
  | some o => some o
  | none =>
    if pct ≥ |take_profit_pct| then some ExitOutcome.tp
    else if pct ≤ -|stop_loss_pct| then some ExitOutcome.sl
    else none

/-- One sample of the DRY_RUN monitoring loop (sniper.py lines 578-728):
the no-data guard of line 601, then the dry-run outcome decision. none
means the loop sleeps for the poll interval and retries. -/
def monitor_step_dry (entry_price : ℚ) (entry_mcap current_price current_mcap : Option ℚ)
    (take_profit_pct stop_loss_pct : ℚ) : Option ExitOutcome :=
  if no_data current_price current_mcap then none
  else dry_run_outcome entry_mcap current_mcap
    (pct_from_entry entry_price current_price) take_profit_pct stop_loss_pct

/-- One sample of the real-execution monitoring loop (sniper.py lines
578-755): the no-data guard of line 601, then the price-based stop-loss
check of line 731 followed by the take-profit check of line 743. -/
def monitor_step_real (entry_price : ℚ) (current_price current_mcap : Option ℚ)
    (take_profit_pct stop_loss_pct : ℚ) : Option ExitOutcome :=
  if no_data current_price current_mcap then none
  else
    let pct := pct_from_entry entry_price current_price
    if pct ≤ -|stop_loss_pct| then some ExitOutcome.sl
    else if pct ≥ |take_profit_pct| then some ExitOutcome.tp
    else none

/-- Observable actions of one iteration of process_pending_cas for one
dequeued address (sniper.py lines 245-498). -/
inductive Ev where
  | fetchInfo
  | saveProcessed
  | buyCall
  | recordBuy
  | incDailyTrades
  | sendTelegram
  | simRecordBuy
  | spawnMonitor
  | cooldown
deriving DecidableEq

/-- The inputs process_pending_cas sees for one dequeued address: the fetched
token data, the config values it reads, and whether the swap call raises,
what it returns, and whether record_buy raises. -/
structure ProcessArgs where
  price_usd : Option ℚ
  mcap_val : ℚ
  liquidity_usd : ℚ
  sell_tax : Option ℚ
  max_mcap_liq : ℚ
  daily_capital : ℚ
  buy_fee_percent : ℚ
  sol_price : ℚ
  buy_raises : Bool
  tx_sig : Option String
  record_raises : Bool
  dry_run : Bool
deriving DecidableEq

/-- The sell-tax filter condition of sniper.py line 360:
sell_tax is not None and float(sell_tax) > 0. -/
def sellTaxPositive : Option ℚ → Bool
  | some t => decide (0 < t)
  | none => false

/-- Event trace of one iteration of process_pending_cas for one dequeued
address (sniper.py lines 245-498), transcribed branch by branch:
- line 338: no priceUsd, save_processed_ca and skip;
- line 343: no liquidity, save_processed_ca and skip;
- lines 348-357: MCAP/LIQ quotient above MAX_MCAP_LIQ_RATIO, save and skip;
- lines 359-365: positive sell tax, save and skip;
- lines 367-370: liq_locked is False, save and skip (liq_locked is the local
  set to None at line 322 and never reassigned, so this branch is dead);
- lines 373-377: usd_amount = DAILY_CAPITAL_USD * (1 - BUY_FEE_PERCENT/100),
  sol_amount = usd_to_sol(usd_amount); non-positive, save and skip;
- lines 382-386: lamports = int(round(sol_amount * LAMPORTS_PER_SOL));
  non-positive, save and skip;
- lines 387-406: the swap call; on an exception, save_processed_ca and skip;
- lines 412-418: record_buy, save_processed_ca, daily_trades += 1 (skipped
  together when record_buy raises, the exception being caught);
- lines 420-437: telegram message; lines 439-471: DRY_RUN simulated-buy
  bookkeeping; lines 473-490: spawn monitor_position; lines 492-498 cooldown.
The returned transaction signature a.tx_sig is never inspected. -/
def process_ca (a : ProcessArgs) : List Ev :=
  match a.price_usd with
  | none => [Ev.fetchInfo, Ev.saveProcessed]
  | some _ =>
    if a.liquidity_usd ≤ 0 then [Ev.fetchInfo, Ev.saveProcessed]
    else
      let mcap_over_liq := a.mcap_val / a.liquidity_usd
      if a.max_mcap_liq < mcap_over_liq then [Ev.fetchInfo, Ev.saveProcessed]
      else if sellTaxPositive a.sell_tax then [Ev.fetchInfo, Ev.saveProcessed]
      else
        let liq_locked : Option Bool := none
        if liq_locked = some false then [Ev.fetchInfo, Ev.saveProcessed]
        else
          let usd_amount := a.daily_capital * (1 - a.buy_fee_percent / 100)
          let sol_amount := usd_amount / a.sol_price
          if usd_amount ≤ 0 ∨ sol_amount ≤ 0 then [Ev.fetchInfo, Ev.saveProcessed]
          else
            let lamports := pyRound (sol_amount * 1000000000)
            if lamports ≤ 0 then [Ev.fetchInfo, Ev.saveProcessed]
            else if a.buy_raises then [Ev.fetchInfo, Ev.buyCall, Ev.saveProcessed]
            else
              [Ev.fetchInfo, Ev.buyCall]
                ++ (if a.record_raises then []
                    else [Ev.recordBuy, Ev.saveProcessed, Ev.incDailyTrades])
                ++ [Ev.sendTelegram]
                ++ (if a.dry_run then [Ev.simRecordBuy] else [])
                ++ [Ev.spawnMonitor, Ev.cooldown]

/-- is_buy_allowed (utils.py lines 1052-1054): a placeholder that returns
True unconditionally. -/
def is_buy_allowed : Bool := true

/-- The daily_trades += 1 step of process_pending_cas (sniper.py line 416). -/
def daily_trades_inc (daily_trades : ℕ) : ℕ := daily_trades + 1

/-- Effective default of MAX_BUYS_PER_DAY: the module-level reassignment at
sniper.py line 809 uses default "50". -/
def MAX_BUYS_PER_DAY_default : ℕ := 50

/-- save_processed_ca (utils.py lines 134-137) seen as a set update:
processed[ca] = timestamp inserts the key ca. -/
def save_processed_ca_set (processed : List String) (ca : String) : List String :=
  if ca ∈ processed then processed else processed ++ [ca]

/-- The shared state the accept path reads and writes: the processed-CA file
keyed by address, and the _pending_cas queue. -/
structure SniperState where
  processed : List String
  queue : List String
deriving DecidableEq

/-- The accept path for one discovered address: _on_new_message (sniper.py
lines 167-184) followed by enqueue_ca (utils.py lines 1061-1066).
- line 168: is_ca_processed, reject if already processed;
- lines 171-182: is_buy_allowed; when not allowed, save_processed_ca and
  reject (dead, since is_buy_allowed is constantly true);
- utils.py line 1062: enqueue_ca checks is_ca_processed again and enqueues.
Returns whether the address was enqueued, and the new state. Nothing here
writes the processed set on the accepting path. -/
def accept_ca (s : SniperState) (ca : String) : Bool × SniperState :=
  if ca ∈ s.processed then (false, s)
  else if is_buy_allowed = false then
    (false, { s with processed := save_processed_ca_set s.processed ca })
  else if ca ∈ s.processed then (false, s)
  else (true, { s with queue := s.queue ++ [ca] })

/-- The background worker (process_pending_cas) drains the queue in order and
runs one process_ca iteration per entry; it never re-reads the processed set
before buying (sniper.py lines 239-498 contain no is_ca_processed call).
Events are tagged with the address they belong to. -/
def worker_trace (queue : List String) (args : String → ProcessArgs) :
    List (String × Ev) :=
  queue.flatMap (fun ca => (process_ca (args ca)).map (fun e => (ca, e)))

/-- Number of buy calls the worker performs for one address. -/
def buy_count_for (t : List (String × Ev)) (ca : String) : ℕ :=
  (t.filter (fun p => decide (p.1 = ca ∧ p.2 = Ev.buyCall))).length

/-- File-system state relevant to persistence: the contents of the target
JSON file and of its temporary sibling. none means the file does not exist. -/
structure FS where
  target : Option String
  tmp : Option String
deriving DecidableEq

/-- Primitive file operations performed by the two save paths. Opening a
file with mode w truncates it to empty before any data is written. -/
inductive FileOp where
  | truncTarget
  | writeTarget (data : String)
  | truncTmp
  | writeTmp (data : String)
  | renameTmp
deriving DecidableEq

/-- Effect of one file operation. -/
def applyOp (fs : FS) : FileOp → FS
  | FileOp.truncTarget => { fs with target := some ("") }
  | FileOp.writeTarget d => { fs with target := some d }
  | FileOp.truncTmp => { fs with tmp := some ("") }
  | FileOp.writeTmp d => { fs with tmp := some d }
  | FileOp.renameTmp => { target := fs.tmp, tmp := none }

/-- Run a sequence of file operations. A crash after k operations is
modelled by running only the first k. -/
def run_ops (fs : FS) (ops : List FileOp) : FS :=
  ops.foldl applyOp fs

/-- _save_json (utils.py lines 125-127), used by save_position_state and
save_processed_ca: open(file_path, "w") truncates the target in place, then
json.dump writes the data. -/
def save_json_ops (data : String) : List FileOp :=
  [FileOp.truncTarget, FileOp.writeTarget data]

/-- save_sim_state (sniper.py lines 827-837): write the data to a .tmp
sibling, then os.replace it over the target. -/
def save_sim_state_ops (data : String) : List FileOp :=
  [FileOp.truncTmp, FileOp.writeTmp data, FileOp.renameTmp]

/-- Concrete address used in counterexamples. -/
def caX : String := "X"

/-- Concrete live transaction signature used in counterexamples. -/
def fakeSig : String := "sig"

/-- Concrete previous file content used in the persistence counterexample. -/
def oldContent : String := "old"

/-- Concrete new file content used in the persistence counterexample. -/
def newContent : String := "new"

/-- Content of a file truncated by opening it with mode w. -/
def emptyContent : String := ""

/-- Inputs under which process_pending_cas accepts the address and reaches
the buy call: price 1 USD, market cap 100, liquidity 50 (quotient 2 below
the default limit 10), no sell tax, DAILY_CAPITAL_USD 10, BUY_FEE_PERCENT 1,
SOL at 100 USD, swap call returns a signature, nothing raises, live mode. -/
def goodArgs : ProcessArgs :=
  { price_usd := some 1
    mcap_val := 100
    liquidity_usd := 50
    sell_tax := none
    max_mcap_liq := 10
    daily_capital := 10
    buy_fee_percent := 1
    sol_price := 100
    buy_raises := false
    tx_sig := some fakeSig
    record_raises := false
    dry_run := false }

/-- The same accepted inputs, but the swap call returned None: the buy
failed after its 3 retries (utils.py lines 984-985). -/
def failedBuyArgs : ProcessArgs :=
  { goodArgs with tx_sig := none }

/-- A persisted compound state whose stored last_daily_capital is 5. -/
def sampleState5 : CompoundState :=
  { current_balance_usd := 42
    cycle := 7
    last_daily_capital := some 5
    cumulative_profit_usd := 9
    total_invested_usd := 30
    total_proceeds_usd := 39
    reserved_fees_usd := 1
    last_profit_usd := 2
    last_trade_result := some TradeResult.win }

/-- Helper: the event trace on the accepted inputs goodArgs. -/
theorem goodArgs_trace : process_ca goodArgs =
    [Ev.fetchInfo, Ev.buyCall, Ev.recordBuy, Ev.saveProcessed, Ev.incDailyTrades,
     Ev.sendTelegram, Ev.spawnMonitor, Ev.cooldown] := by
  norm_num [process_ca, goodArgs, sellTaxPositive, pyRound]
  exact fun h => Option.noConfusion h

/-- Helper: the trace is the same when the swap call returned None. -/
theorem failedBuyArgs_trace : process_ca failedBuyArgs =
    [Ev.fetchInfo, Ev.buyCall, Ev.recordBuy, Ev.saveProcessed, Ev.incDailyTrades,
     Ev.sendTelegram, Ev.spawnMonitor, Ev.cooldown] := by
  norm_num [process_ca, failedBuyArgs, goodArgs, sellTaxPositive, pyRound]
  exact fun h => Option.noConfusion h

/-- C1 (claim as stated is false at this input): on inputs accepted for
buying, the buy call occurs in the trace and no save_processed_ca precedes
it — process_pending_cas calls execute_jupiter_swap_from_quote (line 394)
before save_processed_ca (line 415). -/
theorem c1_counterexample :
    Ev.buyCall ∈ process_ca goodArgs ∧
    ¬ (process_ca goodArgs).indexOf Ev.saveProcessed <
        (process_ca goodArgs).indexOf Ev.buyCall := by
  rw [goodArgs_trace]
  exact ⟨by decide, by decide⟩

/-- C1 (amended): marking the address processed happens after the buy, not
before: in every trace of process_pending_cas that contains a buy call,
save_processed_ca occurs, if at all, strictly later than the buy call. -/
theorem c1_amended_mark_after_buy (a : ProcessArgs)
    (h : Ev.buyCall ∈ process_ca a) :
    (process_ca a).indexOf Ev.buyCall < (process_ca a).indexOf Ev.saveProcessed := by
  obtain ⟨pu, mv, lq, st, mr, dc, bf, sp, br, tx, rr, dr⟩ := a
  cases pu with
  | none => simp [process_ca] at h
  | some p =>
    simp only [process_ca] at h ⊢
    split_ifs at h ⊢ <;> first | exact absurd h (by decide) | decide

/-- C1 witness: the amended ordering at the concrete accepted input. -/
theorem c1_witness :
    (process_ca goodArgs).indexOf Ev.buyCall <
      (process_ca goodArgs).indexOf Ev.saveProcessed :=
  c1_amended_mark_after_buy goodArgs (by rw [goodArgs_trace]; decide)

/-- C2 (claim as stated is false at this input): offering the same address
twice before the worker has processed it enqueues it both times (the second
offer returns true, not false), and draining the queue then buys the same
address twice — the processed set is only written during processing, and
process_pending_cas never re-checks it. -/
theorem c2_counterexample :
    (accept_ca (accept_ca { processed := [], queue := [] } caX).2 caX).1 = true ∧
    buy_count_for
      (worker_trace (accept_ca (accept_ca { processed := [], queue := [] } caX).2 caX).2.queue
        (fun _ => goodArgs)) caX = 2 := by
  have hq : (accept_ca (accept_ca { processed := [], queue := [] } caX).2 caX).2.queue
      = [caX, caX] := by
    simp [accept_ca, is_buy_allowed]
  refine ⟨by simp [accept_ca, is_buy_allowed], ?_⟩
  rw [hq]
  simp only [worker_trace, goodArgs_trace, buy_count_for]
  decide

/-- C2 (amended): a repeated offer is rejected exactly when the address is
already in the processed set at offer time; in particular once an address
has been saved processed, accept returns false and leaves the state
unchanged. -/
theorem c2_amended_reject_processed (s : SniperState) (ca : String)
    (h : ca ∈ s.processed) : accept_ca s ca = (false, s) := by
  simp [accept_ca, h]

/-- C2 witness: a processed address is rejected. -/
theorem c2_witness :
    accept_ca { processed := [caX], queue := [] } caX =
      (false, { processed := [caX], queue := [] }) :=
  c2_amended_reject_processed { processed := [caX], queue := [] } caX (by simp)

/-- C3: when the swap call returns None (buy failed after its 3 retries),
the gateway itself performs no bookkeeping, but process_pending_cas still
records the buy and spawns the monitor — its post-buy behaviour does not
inspect the returned signature at all, contradicting the stated
transition-to-FAILED-and-stop behaviour. -/
theorem c3_failed_buy_still_records :
    (buy_gateway_result false false 1000000000 1 100 0 fakeSig).1 = none ∧
    Ev.recordBuy ∈ process_ca failedBuyArgs ∧
    Ev.spawnMonitor ∈ process_ca failedBuyArgs ∧
    process_ca failedBuyArgs = process_ca goodArgs := by
  refine ⟨rfl, ?_, ?_, ?_⟩
  · rw [failedBuyArgs_trace]; decide
  · rw [failedBuyArgs_trace]; decide
  · rw [failedBuyArgs_trace, goodArgs_trace]

/-- C4 (claim as stated is false at this input): a single losing close
(10 USD in, 0 USD out) from the default state drives the persisted
compounding balance below zero — update_compound_balance applies no floor. -/
theorem c4_counterexample :
    (update_compound_balance initial_position_state none (some 10) (some 0)
      10 1 1).current_balance_usd < 0 := by
  norm_num [update_compound_balance, initial_position_state]
  rw [if_neg (fun hh => Option.noConfusion hh)]
  norm_num

/-- C4 (amended): the balance update is plain addition of the trade profit,
with no floor clamp of any kind: when the stored daily capital matches the
configured one, the new balance is exactly the old balance plus the profit,
and can therefore become negative. -/
theorem c4_amended_no_floor (s : CompoundState) (p cap bf sf : ℚ)
    (h : s.last_daily_capital = some cap) :
    (update_compound_balance s (some p) none none cap bf sf).current_balance_usd =
      s.current_balance_usd + p := by
  simp [update_compound_balance, h]

/-- C4 witness: the amended additive update at a concrete state. -/
theorem c4_witness :
    (update_compound_balance sampleState5 (some (-10)) none none 5 1 1).current_balance_usd =
      sampleState5.current_balance_usd + (-10) :=
  c4_amended_no_floor sampleState5 (-10) 5 1 1 rfl

/-- C5 (claim as stated is false): the can-open check is not equivalent to
positions_opened_today < daily limit — at a counter equal to the limit the
claimed check is false while is_buy_allowed still returns true. -/
theorem c5_counterexample :
    ¬ (is_buy_allowed = true ↔ MAX_BUYS_PER_DAY_default < MAX_BUYS_PER_DAY_default) := by
  decide

/-- C5 (amended): is_buy_allowed is a placeholder returning true
unconditionally, and the daily-trades counter is incremented with no
comparison against the limit, so immediately after recording an opened
position it can exceed MAX_BUYS_PER_DAY. -/
theorem c5_amended_placeholder :
    is_buy_allowed = true ∧ (∀ c : ℕ, daily_trades_inc c = c + 1) ∧
      MAX_BUYS_PER_DAY_default < daily_trades_inc MAX_BUYS_PER_DAY_default :=
  ⟨rfl, fun _ => rfl, by decide⟩

/-- C6 (claim as stated is false at this input): with entry market cap 100
and current market cap 110 both known and neither market-cap threshold
crossed (TP 40 percent, SL 20 percent), a price move from 1 to 1.5 still
triggers a take-profit through the price-based comparison — the price
thresholds are evaluated whenever no market-cap outcome was decided, not
only when market-cap data is unavailable. -/
theorem c6_counterexample :
    monitor_step_dry 1 (some 100) (some (3 / 2)) (some 110) 40 20 = some ExitOutcome.tp ∧
    (110 : ℚ) < 100 * (1 + 40 / 100) ∧ 100 * (1 - 20 / 100) < (110 : ℚ) := by
  refine ⟨?_, by norm_num, by norm_num⟩
  norm_num [monitor_step_dry, no_data, pct_from_entry, dry_run_outcome]

/-- C6 (amended): the market-cap comparison takes precedence when it fires —
a crossed market-cap threshold decides the outcome — but when both market
caps are known and neither threshold is crossed, the decision falls through
to exactly the price-based decision used when market-cap data is
unavailable. -/
theorem c6_amended_mcap_precedence (em cm pct tp sl : ℚ) :
    (em * (1 + tp / 100) ≤ cm →
      dry_run_outcome (some em) (some cm) pct tp sl = some ExitOutcome.tp) ∧
    (cm < em * (1 + tp / 100) → cm ≤ em * (1 - sl / 100) →
      dry_run_outcome (some em) (some cm) pct tp sl = some ExitOutcome.sl) ∧
    (cm < em * (1 + tp / 100) → em * (1 - sl / 100) < cm →
      dry_run_outcome (some em) (some cm) pct tp sl = dry_run_outcome none none pct tp sl) := by
  refine ⟨fun h1 => ?_, fun h1 h2 => ?_, fun h1 h2 => ?_⟩
  · simp [dry_run_outcome, ge_iff_le, h1]
  · simp [dry_run_outcome, ge_iff_le, not_le.mpr h1, h2]
  · simp [dry_run_outcome, ge_iff_le, not_le.mpr h1, not_le.mpr h2]

/-- C6 witness: a crossed take-profit market-cap threshold decides TP. -/
theorem c6_witness :
    dry_run_outcome (some 100) (some 150) 0 40 20 = some ExitOutcome.tp :=
  (c6_amended_mcap_precedence 100 150 0 40 20).1 (by norm_num)

/-- C7 (claim as stated is false at this input): a sample with the price
missing but a market cap present passes the no-data guard, the price is read
as 0, pct_from_entry becomes -100 percent, and the real-execution path
triggers a stop-loss sell from the unknown price. -/
theorem c7_counterexample :
    monitor_step_real 1 none (some 100) 40 20 = some ExitOutcome.sl := by
  norm_num [monitor_step_real, no_data, pct_from_entry]

/-- C7 (amended): only a sample missing both the price and the market cap is
tolerated: on such a sample neither the real-execution path nor the DRY_RUN
path triggers any exit, and the loop retries. -/
theorem c7_amended_no_trigger_when_missing (entry tp sl : ℚ) (em : Option ℚ) :
    monitor_step_real entry none none tp sl = none ∧
    monitor_step_dry entry em none none tp sl = none := by
  constructor <;> simp [monitor_step_real, monitor_step_dry, no_data]

/-- C8: in DRY_RUN mode a buy and a sell perform exactly the bookkeeping of
a successful live execution — the same update_compound_balance delta and the
same record_buy / record_sell gross, net and fee amounts — and return the
fabricated DRY_RUN reference in place of the live signature. -/
theorem c8_dry_live_same_bookkeeping (in_amount out_amount : ℤ)
    (fee_percent total_fee_pct sol_price sol_price2 : ℚ)
    (ts ts2 : ℤ) (sig sig2 : String) :
    (buy_gateway_result true true in_amount fee_percent sol_price ts sig).1 =
      (buy_gateway_result false true in_amount fee_percent sol_price ts sig).1 ∧
    (buy_gateway_result true true in_amount fee_percent sol_price ts sig).2 =
      some (dry_run_buy_ref ts) ∧
    (sell_gateway_result true true out_amount total_fee_pct sol_price2 ts2 sig2).1 =
      (sell_gateway_result false true out_amount total_fee_pct sol_price2 ts2 sig2).1 ∧
    (sell_gateway_result true true out_amount total_fee_pct sol_price2 ts2 sig2).2 =
      some (dry_run_sell_ref ts2) :=
  ⟨rfl, rfl, rfl, rfl⟩

/-- C9 (claim as stated is false at this input): _save_json, used for the
position and processed-CA state, truncates the target file in place, so a
crash after the truncation and before the write leaves an empty, unparseable
file that is neither the old nor the new snapshot. -/
theorem c9_counterexample :
    (run_ops { target := some oldContent, tmp := none }
        ((save_json_ops newContent).take 1)).target = some emptyContent ∧
    emptyContent ≠ oldContent ∧ emptyContent ≠ newContent := by
  refine ⟨rfl, by decide, by decide⟩

/-- C9 (amended): the simulation-state save is atomic — interrupting
save_sim_state at any point leaves the target holding either the previous or
the complete new content — while the position-state save is not; and on a
load failure load_position_state returns the default initial state. -/
theorem c9_amended_sim_atomic_and_fallback :
    (∀ (d : String) (old tmp0 : Option String) (k : ℕ),
        (run_ops { target := old, tmp := tmp0 } ((save_sim_state_ops d).take k)).target = old ∨
        (run_ops { target := old, tmp := tmp0 } ((save_sim_state_ops d).take k)).target = some d) ∧
    load_position_state none = initial_position_state := by
  constructor
  · intro d old tmp0 k
    rcases k with _ | _ | _ | n
    · exact Or.inl rfl
    · exact Or.inl rfl
    · exact Or.inl rfl
    · right
      simp [save_sim_state_ops, run_ops, applyOp, List.take_succ_cons]
  · rfl

/-- C10: whenever the stored last_daily_capital differs from the configured
daily capital, update_compound_balance discards the whole persisted state
before applying the trade: the result is identical to updating the freshly
initialised state, the cycle restarts at 1, and the new balance is exactly
the profit just applied. -/
theorem c10_reset_on_capital_change (s : CompoundState) (ap ui uo : Option ℚ)
    (cap bf sf : ℚ) (h : s.last_daily_capital ≠ some cap) :
    update_compound_balance s ap ui uo cap bf sf =
      update_compound_balance initial_position_state ap ui uo cap bf sf ∧
    (update_compound_balance s ap ui uo cap bf sf).cycle = 1 ∧
    (update_compound_balance s ap ui uo cap bf sf).current_balance_usd =
      (update_compound_balance s ap ui uo cap bf sf).last_profit_usd := by
  refine ⟨?_, ?_, ?_⟩ <;> rcases ui with _ | i <;> rcases uo with _ | o <;>
    simp [update_compound_balance, initial_position_state, h]

/-- C10 witness: a stored daily capital of 5 against a configured 10 resets
the state before the profit is applied. -/
theorem c10_witness :
    update_compound_balance sampleState5 (some 3) none none 10 1 1 =
      update_compound_balance initial_position_state (some 3) none none 10 1 1 :=
  (c10_reset_on_capital_change sampleState5 (some 3) none none 10 1 1
    (by norm_num [sampleState5])).1
